import Mathlib

/-!
Verification of the CivitAI downloader (`civitai_downloader/cli.py`) against its
natural-language specification.

The development shallowly embeds the program: pure helpers of the Python standard
library that the source calls (`urllib.parse.unquote`, `urllib.parse.parse_qs`,
`urlparse(...).query`, `str.split`, `str.strip`, `str.isdigit`, `str.startswith`)
are modelled as executable functions on `String`/`List Char`; the HTTP side is
modelled by passing in a `Server : Request → Response` function, and the local
file at the output path is modelled by an `Option (List Nat)` (its byte content,
`none` when absent).  Exceptions become an explicit `PyError` sum carried in
`Except`.  All recursions are structural (fuelled where the source loop consumes
a non-constant number of elements) so that every definition evaluates inside the
kernel.
-/

set_option maxRecDepth 100000
set_option linter.unusedVariables false

deriving instance DecidableEq for Except

namespace Civitai

/-- Python exception values that the program can raise.  Each constructor keeps
the exception's message (`str(e)`); `httpError` is `urllib.error.HTTPError`
(a subclass of `URLError`/`OSError`) raised by `urllib.request.urlopen` on a
non-2xx status, carrying the status code (its reason phrase is elided). -/
inductive PyError where
  | valueError (msg : String)
  | fileNotFoundError (msg : String)
  | runtimeError (msg : String)
  | indexError (msg : String)
  | zeroDivisionError (msg : String)
  | httpError (code : Nat)
deriving DecidableEq, Repr

/-- `CHUNK_SIZE = 1638400` from cli.py line 12. -/
def CHUNK_SIZE : Nat := 1638400

/-- `USER_AGENT` from cli.py line 14. -/
def USER_AGENT : String :=
  "Mozilla/5.0 (Windows NT 10.0; Win64; x64) AppleWebKit/537.36 (KHTML, like Gecko) Chrome/58.0.3029.110 Safari/537.3"

/-- `BASE_URL` from cli.py line 15. -/
def BASE_URL : String := "https://civitai.com/api/download/models/"

/-! ### Python string helpers used by the source -/

/-- If `sep` is an initial run of `l`, return the remainder of `l` after it. -/
def matchesAt? : List Char → List Char → Option (List Char)
  | [], l => some l
  | _ :: _, [] => none
  | s :: ss, c :: cs => if c = s then matchesAt? ss cs else none

/-- Python `s.split(sep)` for a single-character separator `sep`
(all occurrences, empty segments kept). -/
def splitChar (sep : Char) : List Char → List (List Char)
  | [] => [[]]
  | x :: xs =>
    match splitChar sep xs with
    | [] => [[]]
    | h :: t => if x = sep then [] :: h :: t else (x :: h) :: t

/-- Python `s.split(sep, 1)` for a single-character separator: split at the
first occurrence only; `none` when the separator does not occur. -/
def splitFirstChar (sep : Char) : List Char → Option (List Char × List Char)
  | [] => none
  | x :: xs =>
    if x = sep then some ([], xs)
    else (splitFirstChar sep xs).map (fun p => (x :: p.1, p.2))

/-- Fuelled worker for Python `s.split(sep)` with a multi-character separator
(leftmost, non-overlapping; trailing empty segments kept).  The fuel is the
length of the list being split, which bounds the number of steps because the
separators used by the source are nonempty. -/
def splitSubFuel (sep : List Char) : Nat → List Char → List (List Char)
  | 0, l => [l]
  | _ + 1, [] => [[]]
  | fuel + 1, c :: cs =>
    match matchesAt? sep (c :: cs) with
    | some rest => [] :: splitSubFuel sep fuel rest
    | none =>
      match splitSubFuel sep fuel cs with
      | [] => [[c]]
      | h :: t => (c :: h) :: t

/-- Python `s.split(sep)` (as used in cli.py line 99 with `sep = 'filename='`). -/
def pySplit (s sep : String) : List String :=
  (splitSubFuel sep.data s.data.length s.data).map String.mk

/-- Whether `sub` occurs inside `s` (derived from `pySplit`). -/
def strContains (s sub : String) : Bool :=
  1 < (pySplit s sub).length

/-- Python `s.strip('"')` from cli.py line 99: remove every leading and
trailing double-quote character. -/
def strip_quotes (s : String) : String :=
  String.mk (((s.data.dropWhile (fun c => c = '"')).reverse.dropWhile
    (fun c => c = '"')).reverse)

/-- Value of a hexadecimal digit, as accepted by `urllib.parse.unquote`. -/
def hexVal (c : Char) : Option Nat :=
  if ('0' : Char) ≤ c ∧ c ≤ '9' then some (c.toNat - 48)
  else if ('a' : Char) ≤ c ∧ c ≤ 'f' then some (c.toNat - 87)
  else if ('A' : Char) ≤ c ∧ c ≤ 'F' then some (c.toNat - 55)
  else none

/-- U+FFFD, produced by Python's `errors='replace'` UTF-8 decoding. -/
def replacementChar : Char := Char.ofNat 0xFFFD

/-- UTF-8 continuation byte. -/
def isCont (b : Nat) : Bool := 0x80 ≤ b && b ≤ 0xBF

/-- Admissible first continuation byte of a three-byte UTF-8 sequence. -/
def cont3first (b b1 : Nat) : Bool :=
  if b = 0xE0 then 0xA0 ≤ b1 && b1 ≤ 0xBF
  else if b = 0xED then 0x80 ≤ b1 && b1 ≤ 0x9F
  else isCont b1

/-- Admissible first continuation byte of a four-byte UTF-8 sequence. -/
def cont4first (b b1 : Nat) : Bool :=
  if b = 0xF0 then 0x90 ≤ b1 && b1 ≤ 0xBF
  else if b = 0xF4 then 0x80 ≤ b1 && b1 ≤ 0x8F
  else isCont b1

/-- Fuelled worker for UTF-8 decoding with `errors='replace'`: each step
consumes at least one byte, so fuel equal to the byte count suffices. -/
def utf8DecodeFuel : Nat → List Nat → List Char
  | 0, _ => []
  | _ + 1, [] => []
  | fuel + 1, b :: bs =>
    if b < 0x80 then Char.ofNat b :: utf8DecodeFuel fuel bs
    else if 0xC2 ≤ b && b ≤ 0xDF then
      match bs with
      | [] => [replacementChar]
      | b1 :: bs1 =>
        if isCont b1 then
          Char.ofNat ((b - 0xC0) * 64 + (b1 - 0x80)) :: utf8DecodeFuel fuel bs1
        else replacementChar :: utf8DecodeFuel fuel bs
    else if 0xE0 ≤ b && b ≤ 0xEF then
      match bs with
      | [] => [replacementChar]
      | b1 :: bs1 =>
        if cont3first b b1 then
          match bs1 with
          | [] => [replacementChar]
          | b2 :: bs2 =>
            if isCont b2 then
              Char.ofNat ((b - 0xE0) * 4096 + (b1 - 0x80) * 64 + (b2 - 0x80)) ::
                utf8DecodeFuel fuel bs2
            else replacementChar :: utf8DecodeFuel fuel bs1
        else replacementChar :: utf8DecodeFuel fuel bs
    else if 0xF0 ≤ b && b ≤ 0xF4 then
      match bs with
      | [] => [replacementChar]
      | b1 :: bs1 =>
        if cont4first b b1 then
          match bs1 with
          | [] => [replacementChar]
          | b2 :: bs2 =>
            if isCont b2 then
              match bs2 with
              | [] => [replacementChar]
              | b3 :: bs3 =>
                if isCont b3 then
                  Char.ofNat ((b - 0xF0) * 262144 + (b1 - 0x80) * 4096 +
                    (b2 - 0x80) * 64 + (b3 - 0x80)) :: utf8DecodeFuel fuel bs3
                else replacementChar :: utf8DecodeFuel fuel bs2
            else replacementChar :: utf8DecodeFuel fuel bs1
        else replacementChar :: utf8DecodeFuel fuel bs
    else replacementChar :: utf8DecodeFuel fuel bs

/-- UTF-8 decoding with `errors='replace'` (as performed inside
`urllib.parse.unquote`): valid sequences decode to their code point, an invalid
or truncated sequence becomes one U+FFFD after consuming its longest valid
prefix. -/
def utf8DecodeReplace (bytes : List Nat) : List Char :=
  utf8DecodeFuel bytes.length bytes

/-- Fuelled worker for `urllib.parse.unquote`: `%XX` escapes (hex, either case)
become bytes; unescaped ASCII characters are bytes of the same run; a maximal
byte run is decoded as UTF-8 with `errors='replace'`; a `%` not followed by two
hex digits stays literal; non-ASCII characters pass through unchanged and end
the current byte run.  Each step consumes at least one character, so fuel equal
to the character count suffices. -/
def unquoteFuel : Nat → List Char → List Nat → List Char
  | 0, _, pending => utf8DecodeReplace pending.reverse
  | _ + 1, [], pending => utf8DecodeReplace pending.reverse
  | fuel + 1, c :: rest, pending =>
    if c = '%' then
      match rest with
      | c1 :: c2 :: rest2 =>
        match hexVal c1, hexVal c2 with
        | some hi, some lo => unquoteFuel fuel rest2 ((hi * 16 + lo) :: pending)
        | _, _ => unquoteFuel fuel rest (37 :: pending)
      | _ => unquoteFuel fuel rest (37 :: pending)
    else if c.toNat ≤ 0x7F then unquoteFuel fuel rest (c.toNat :: pending)
    else utf8DecodeReplace pending.reverse ++ c :: unquoteFuel fuel rest []

/-- `urllib.parse.unquote` with its default arguments (cli.py line 99, and
inside `parse_qs`). -/
def unquote (s : String) : String := String.mk (unquoteFuel s.data.length s.data [])

/-- The `+` → space replacement that `parse_qsl` applies before unquoting. -/
def plus_to_space (l : List Char) : List Char :=
  l.map (fun c => if c = '+' then ' ' else c)

/-- `urllib.parse.parse_qsl` with default arguments: split the query string on
`&`; skip empty fields; skip fields without `=`; skip fields whose value is
empty (`keep_blank_values=False`); replace `+` by space and percent-decode both
name and value. -/
def parse_qsl (qs : String) : List (String × String) :=
  (splitChar '&' qs.data).filterMap fun name_value =>
    match name_value with
    | [] => none
    | _ =>
      match splitFirstChar '=' name_value with
      | none => none
      | some (n, v) =>
        match v with
        | [] => none
        | _ =>
          some (unquote (String.mk (plus_to_space n)),
                unquote (String.mk (plus_to_space v)))

/-- `parse_qs(qs).get(key, [None])[0]` from cli.py lines 95-96: the first value
listed for `key`, or `none` when the key never occurs (with a nonempty value). -/
def parse_qs_get (qs key : String) : Option String :=
  (((parse_qsl qs).filter (fun p => p.1 == key)).map (fun p => p.2)).head?

/-- The `query` component of `urlparse(url)` (cli.py lines 94-95): the part of
`url` after the first `?`, with the fragment (everything from the first `#`)
removed first; empty when there is no `?`. -/
def urlparse_query (url : String) : String :=
  let preFrag :=
    match splitFirstChar '#' url.data with
    | some (a, _) => a
    | none => url.data
  match splitFirstChar '?' preFrag with
  | some (_, q) => String.mk q
  | none => ""

/-- Python `s.isdigit()`: nonempty and all digits (restricted to ASCII digits;
for the inputs of `normalize_url` the two notions agree on the result because
every non-`http`-prefixed string is given the base prefix either way). -/
def py_isdigit (s : String) : Bool :=
  !s.data.isEmpty && s.data.all Char.isDigit

/-- Python `s.startswith(p)`. -/
def py_startswith (s p : String) : Bool :=
  (matchesAt? p.data s.data).isSome

/-- `normalize_url` from cli.py lines 18-27. -/
def normalize_url (url_or_id : String) : String :=
  if py_isdigit url_or_id then BASE_URL ++ url_or_id
  else if py_startswith url_or_id "http" then url_or_id
  else BASE_URL ++ url_or_id

/-- Character allowed after the first position of a URI scheme
(RFC 3986: ALPHA / DIGIT / `+` / `-` / `.`). -/
def schemeChar (c : Char) : Bool :=
  c.isAlpha || c.isDigit || c = '+' || c = '-' || c = '.'

/-- Modelled from the spec's words, for comparison with `normalize_url`: a
string "already beginning with a scheme" in the sense of RFC 3986, i.e. an
ALPHA followed by scheme characters up to a `:`. -/
def beginsWithURLScheme (s : String) : Bool :=
  match splitFirstChar ':' s.data with
  | some (sch, _) =>
    match sch with
    | [] => false
    | c :: cs => c.isAlpha && cs.all schemeChar
  | none => false

/-- `get_token` from cli.py lines 52-58, with the filesystem read modelled by
its result: `contents` is the token file's content when the file is readable.
The content is returned verbatim (the source performs no stripping or
validation on `file.read()`). -/
def get_token (contents : Option String) : Option String :=
  contents

/-! ### The HTTP and transfer model -/

/-- An outgoing HTTP GET request: the URL and the headers the program set on it
(urllib adds nothing that the program controls). -/
structure Request where
  url : String
  headers : List (String × String)
deriving DecidableEq, Repr

/-- An HTTP response as the program observes it: status code, the `Location`
header, the `Content-Length` header (as a decimal number when present), and the
body bytes that `response.read` will stream. -/
structure Response where
  status : Nat
  location : Option String
  contentLength : Option Nat
  body : List Nat
deriving DecidableEq, Repr

/-- The remote side: what the server answers to each request.  The program is
deterministic given this function. -/
def Server : Type := Request → Response

/-- The headers of the resolution request, cli.py lines 75-78. -/
def resolutionHeaders (token : String) : List (String × String) :=
  [("Authorization", "Bearer " ++ token), ("User-Agent", USER_AGENT)]

/-- `urllib.request.urlopen` with the default opener (cli.py lines 122, 130,
134): raises `HTTPError` for a status outside 2xx, otherwise hands back the
response.  (Redirects of the content URL are not modelled; in every scenario
considered the content server answers directly.) -/
def urlopen_default (server : Server) (req : Request) : Except PyError Response :=
  let r := server req
  if 200 ≤ r.status ∧ r.status < 300 then .ok r else .error (.httpError r.status)

/-- The resolution section of `download_file`, cli.py lines 90-105, applied to
the response that the `NoRedirection` opener returned unchanged.  On a redirect
status it reads `Location`, parses its query string for
`response-content-disposition` and extracts the filename with
`unquote(cd.split('filename=')[1].strip('"'))`; `split(...)[1]` raises
`IndexError` when `'filename='` does not occur.  Status 404 raises
`FileNotFoundError('File not found')`; anything else raises
`RuntimeError('No redirect found, something went wrong')`.  (A redirect without
a `Location` header is treated by `urlparse` as the empty string.) -/
def resolve (response : Response) : Except PyError (String × String) :=
  if response.status ∈ [301, 302, 303, 307, 308] then
    let redirect_url := response.location.getD ""
    match parse_qs_get (urlparse_query redirect_url) "response-content-disposition" with
    | some content_disposition =>
      match (pySplit content_disposition "filename=").get? 1 with
      | some item => .ok (redirect_url, unquote (strip_quotes item))
      | none => .error (.indexError "list index out of range")
    | none => .error (.valueError "Unable to determine filename")
  else if response.status = 404 then
    .error (.fileNotFoundError "File not found")
  else
    .error (.runtimeError "No redirect found, something went wrong")

/-- Fuelled embedding of the streaming loop, cli.py lines 151-169: read chunks
of `CHUNK_SIZE` bytes until a read returns nothing, appending each chunk to the
file and advancing `downloaded`; after each nonempty chunk the progress report
divides `downloaded` by the total, which raises `ZeroDivisionError` when a
known total is `0`.  Each iteration consumes at least one byte, so fuel equal
to the body length suffices. -/
def streamLoopFuel (total_size : Option Nat) :
    Nat → List Nat → List Nat → Nat → Except PyError (List Nat × Nat)
  | 0, _, f, downloaded => .ok (f, downloaded)
  | fuel + 1, rest, f, downloaded =>
    let buffer := rest.take CHUNK_SIZE
    if buffer = [] then .ok (f, downloaded)
    else
      match total_size with
      | some 0 => .error (.zeroDivisionError "division by zero")
      | _ =>
        streamLoopFuel total_size fuel (rest.drop CHUNK_SIZE)
          (f ++ buffer) (downloaded + buffer.length)

/-- The streaming loop on a whole response body. -/
def streamLoop (total_size : Option Nat) (body f : List Nat) (downloaded : Nat) :
    Except PyError (List Nat × Nat) :=
  streamLoopFuel total_size body.length body f downloaded

/-- The observable outcome of one completed transfer: the resolved filename,
the mode the output file was opened with (`"ab"` or `"wb"`, cli.py line 145),
the final byte content of the output file, the total size the progress report
used (cli.py lines 136-142), and the final value of `downloaded`. -/
structure TransferResult where
  filename : String
  fileMode : String
  fileContent : List Nat
  totalSize : Option Nat
  downloaded : Nat
deriving DecidableEq, Repr

/-- cli.py lines 136-169 after the negotiation fixed `resume_byte_pos` and the
response to stream from: compute the total (adding `resume_byte_pos` exactly
when a resume is in progress and the status is 206), open the file in append or
truncating write mode, and run the streaming loop. -/
def finishStream (filename : String) (existing : Option (List Nat))
    (resume_byte_pos : Nat) (response : Response) : Except PyError TransferResult :=
  let total_size : Option Nat :=
    match response.contentLength with
    | none => none
    | some l =>
      if resume_byte_pos > 0 ∧ response.status = 206 then some (l + resume_byte_pos)
      else some l
  let file_mode := if resume_byte_pos > 0 then "ab" else "wb"
  let init : List Nat := if resume_byte_pos > 0 then existing.getD [] else []
  match streamLoop total_size response.body init resume_byte_pos with
  | .error e => .error e
  | .ok (content, downloaded) =>
    .ok ⟨filename, file_mode, content, total_size, downloaded⟩

/-- The transfer engine, cli.py lines 112-169: determine `resume_byte_pos` from
the existing file, negotiate the range request (206 → resume and append;
200 → reset to a fresh plain request and truncate; any other 2xx →
`RuntimeError` carrying the status; non-2xx → `HTTPError` from `urlopen`), then
stream.  Returns the requests sent to the content URL together with the
outcome. -/
def transfer (server : Server) (redirect_url filename : String)
    (existing : Option (List Nat)) :
    List Request × Except PyError TransferResult :=
  let resume_byte_pos := (existing.map List.length).getD 0
  if resume_byte_pos > 0 then
    let resume_request : Request :=
      ⟨redirect_url, [("Range", "bytes=" ++ toString resume_byte_pos ++ "-")]⟩
    match urlopen_default server resume_request with
    | .error e => ([resume_request], .error e)
    | .ok response =>
      if response.status = 206 then
        ([resume_request], finishStream filename existing resume_byte_pos response)
      else if response.status = 200 then
        let full_request : Request := ⟨redirect_url, []⟩
        match urlopen_default server full_request with
        | .error e => ([resume_request, full_request], .error e)
        | .ok response2 =>
          ([resume_request, full_request], finishStream filename existing 0 response2)
      else
        ([resume_request],
         .error (.runtimeError ("Unexpected response status: " ++ toString response.status)))
  else
    let full_request : Request := ⟨redirect_url, []⟩
    match urlopen_default server full_request with
    | .error e => ([full_request], .error e)
    | .ok response => ([full_request], finishStream filename existing 0 response)

/-- `download_file` from cli.py lines 74-169: send the resolution request with
the `Authorization`/`User-Agent` headers through the `NoRedirection` opener,
resolve the content URL and filename, then run the transfer engine.  Returns
every request sent together with the outcome. -/
def download_file (url output_path token : String) (server : Server)
    (existing : Option (List Nat)) :
    List Request × Except PyError TransferResult :=
  let request : Request := ⟨url, resolutionHeaders token⟩
  match resolve (server request) with
  | .error e => ([request], .error e)
  | .ok (redirect_url, filename) =>
    ((request :: (transfer server redirect_url filename existing).1),
     (transfer server redirect_url filename existing).2)

/-- What `main` does with an exception, cli.py lines 198-201. -/
inductive MainOutcome where
  | completed
  | printedError (line : String)
  | crashed (e : PyError)
deriving DecidableEq, Repr

/-- The exception classes caught by `main`'s `except (ValueError,
FileNotFoundError, RuntimeError, IOError, urllib.error.URLError)`:
`FileNotFoundError` and `HTTPError` fall under `IOError`/`URLError`;
`IndexError` and `ZeroDivisionError` are in none of the five classes. -/
def caught : PyError → Bool
  | .valueError _ => true
  | .fileNotFoundError _ => true
  | .runtimeError _ => true
  | .indexError _ => false
  | .zeroDivisionError _ => false
  | .httpError _ => true

/-- Python `str(e)` for the modelled exceptions (the `HTTPError` reason phrase
is elided). -/
def errMessage : PyError → String
  | .valueError m => m
  | .fileNotFoundError m => m
  | .runtimeError m => m
  | .indexError m => m
  | .zeroDivisionError m => m
  | .httpError code => "HTTP Error " ++ toString code ++ ": "

/-- The token `main` ends up using, cli.py lines 190-193: the stored token when
it reads back nonempty (`if not token` also treats an empty file as missing),
otherwise the interactively prompted one. -/
def chooseToken (tokenFile : Option String) (prompted : String) : String :=
  match get_token tokenFile with
  | some t => if t = "" then prompted else t
  | none => prompted

/-- `main` from cli.py lines 188-201: normalize the URL argument, pick the
token, run `download_file`, and catch the five listed exception classes,
printing a single `ERROR: <message>` line; an exception outside them crashes
the process. -/
def main_model (urlArg output_path : String) (tokenFile : Option String)
    (prompted : String) (server : Server) (existing : Option (List Nat)) :
    MainOutcome :=
  match (download_file (normalize_url urlArg) output_path
      (chooseToken tokenFile prompted) server existing).2 with
  | .ok _ => .completed
  | .error e =>
    if caught e then .printedError ("ERROR: " ++ errMessage e) else .crashed e

/-- The requests sent during one `main` invocation. -/
def main_requests (urlArg output_path : String) (tokenFile : Option String)
    (prompted : String) (server : Server) (existing : Option (List Nat)) :
    List Request :=
  (download_file (normalize_url urlArg) output_path
    (chooseToken tokenFile prompted) server existing).1

/-! ### Concrete servers and URLs used to instantiate the theorems -/

/-- A content server that honors the range request: 206, 500 remaining bytes. -/
def c1_server : Server := fun _ => ⟨206, none, some 500, List.replicate 500 1⟩

/-- A content server that ignores the range request: every request, ranged or
plain, gets a fresh full 200 response with 500 body bytes. -/
def c2_server : Server := fun _ => ⟨200, none, some 500, List.replicate 500 2⟩

/-- A redirect `Location` whose query carries a disposition with a filename. -/
def c3_location : String :=
  "https://content.example/f?response-content-disposition=filename%3Dm"

/-- A full-pipeline server: the resolution request (no `Range` header) gets a
redirect, a ranged request gets a 206 with one remaining byte. -/
def c3_server : Server := fun req =>
  if req.headers.any (fun h => h.1 == "Range") then ⟨206, none, some 1, [9]⟩
  else ⟨302, some c3_location, none, []⟩

/-- A content server for a completed file: 206 with an empty remaining body. -/
def c4_server : Server := fun _ => ⟨206, none, some 0, []⟩

/-- The mocked redirect `Location` of the spec's resolver test. -/
def c6_location : String :=
  "https://content.example/f?response-content-disposition=attachment%3B%20filename%3D%22model.safetensors%22"

/-- A redirect `Location` whose query has no disposition parameter at all. -/
def c6_location_bare : String := "https://content.example/f?x=1"

/-- A content server that over-delivers: Content-Length 10 but 20 body bytes. -/
def c8_server : Server := fun _ => ⟨200, none, some 10, List.replicate 20 7⟩

/-- A redirect `Location` whose disposition value lacks a `filename=` token. -/
def c9_location : String :=
  "https://content.example/f?response-content-disposition=attachment"

/-- A resolution server answering with the malformed disposition above. -/
def c9_server : Server := fun _ => ⟨302, some c9_location, none, []⟩

/-- A server whose resolution response is a plain 404. -/
def c10_server : Server := fun _ => ⟨404, none, none, []⟩

/-! ### Shared lemmas about the streaming loop and the negotiation -/

theorem streamLoopFuel_nil (t : Option Nat) (fuel : Nat) (f : List Nat) (d : Nat) :
    streamLoopFuel t fuel [] f d = .ok (f, d) := by
  cases fuel <;> simp [streamLoopFuel]

theorem streamLoopFuel_step (t : Option Nat) (ht : t ≠ some 0) (fuel c : Nat)
    (cs f : List Nat) (d : Nat) :
    streamLoopFuel t (fuel + 1) (c :: cs) f d =
      streamLoopFuel t fuel ((c :: cs).drop CHUNK_SIZE)
        (f ++ (c :: cs).take CHUNK_SIZE) (d + ((c :: cs).take CHUNK_SIZE).length) := by
  rcases t with _ | m
  · simp [streamLoopFuel, List.take_eq_nil_iff, CHUNK_SIZE]
  · rcases m with _ | m
    · exact absurd rfl ht
    · simp [streamLoopFuel, List.take_eq_nil_iff, CHUNK_SIZE]

theorem streamLoopFuel_ok (t : Option Nat) (ht : t ≠ some 0) :
    ∀ fuel rest f d, rest.length ≤ fuel →
      streamLoopFuel t fuel rest f d = .ok (f ++ rest, d + rest.length) := by
  intro fuel
  induction fuel with
  | zero =>
    intro rest f d hle
    have hnil : rest = [] := List.length_eq_zero.mp (Nat.le_zero.mp hle)
    subst hnil
    simp [streamLoopFuel_nil]
  | succ n ih =>
    intro rest f d hle
    cases rest with
    | nil => simp [streamLoopFuel_nil]
    | cons c cs =>
      have hC : 0 < CHUNK_SIZE := by norm_num [CHUNK_SIZE]
      rw [streamLoopFuel_step t ht]
      rw [ih ((c :: cs).drop CHUNK_SIZE) (f ++ (c :: cs).take CHUNK_SIZE)
        (d + ((c :: cs).take CHUNK_SIZE).length) (by simp at hle ⊢; omega)]
      rw [List.append_assoc, List.take_append_drop]
      have hlen : ((c :: cs).take CHUNK_SIZE).length + ((c :: cs).drop CHUNK_SIZE).length
      = (c :: cs).length := by
        simp
        omega
      rw [Nat.add_assoc, hlen]

theorem streamLoop_ok (t : Option Nat) (ht : t ≠ some 0) (body f : List Nat) (d : Nat) :
    streamLoop t body f d = .ok (f ++ body, d + body.length) :=
  streamLoopFuel_ok t ht body.length body f d (Nat.le_refl _)

theorem streamLoop_nil (t : Option Nat) (f : List Nat) (d : Nat) :
    streamLoop t [] f d = .ok (f, d) :=
  streamLoopFuel_nil t 0 f d

theorem finishStream_206 (fn : String) (content body : List Nat)
    (loc : Option String) (L : Nat) (hpos : 0 < content.length) :
    finishStream fn (some content) content.length ⟨206, loc, some L, body⟩ =
      .ok ⟨fn, "ab", content ++ body, some (L + content.length),
        content.length + body.length⟩ := by
  unfold finishStream
  dsimp only
  rw [if_pos ⟨hpos, rfl⟩]
  simp only [if_pos hpos, Option.getD_some]
  rw [streamLoop_ok (some (L + content.length)) (by intro hc; injection hc with hc; omega) body
    content content.length]

theorem finishStream_0 (fn : String) (existing : Option (List Nat)) (resp : Response)
    (h : resp.contentLength ≠ some 0 ∨ resp.body = []) :
    finishStream fn existing 0 resp =
      .ok ⟨fn, "wb", resp.body, resp.contentLength, resp.body.length⟩ := by
  obtain ⟨st, loc, cl, body⟩ := resp
  dsimp only at h ⊢
  rcases h with h | h
  · rcases cl with _ | l
    · unfold finishStream
      norm_num
      rw [streamLoop_ok none (by simp) body [] 0]
      simp
    · have hl : l ≠ 0 := by simpa using h
      unfold finishStream
      norm_num
      rw [streamLoop_ok (some l) (by simpa using hl) body [] 0]
      simp
  · subst h
    rcases cl with _ | l
    · unfold finishStream
      norm_num
      rw [streamLoop_nil]
    · unfold finishStream
      norm_num
      rw [streamLoop_nil]

theorem transfer_206_eq (server : Server) (ru fn : String) (content : List Nat)
    (resp : Response) (hne : content ≠ [])
    (hresp : server ⟨ru, [("Range", "bytes=" ++ toString content.length ++ "-")]⟩ = resp)
    (h206 : resp.status = 206) :
    transfer server ru fn (some content) =
      ([⟨ru, [("Range", "bytes=" ++ toString content.length ++ "-")]⟩],
       finishStream fn (some content) content.length resp) := by
  have hpos : 0 < content.length := List.length_pos.mpr hne
  have hu : urlopen_default server
      ⟨ru, [("Range", "bytes=" ++ toString content.length ++ "-")]⟩ = .ok resp := by
    unfold urlopen_default
    rw [hresp, if_pos (by rw [h206]; norm_num)]
  unfold transfer
  dsimp only
  simp only [Option.map_some', Option.getD_some]
  rw [if_pos hpos, hu]
  dsimp only
  rw [if_pos h206]

theorem transfer_200_eq (server : Server) (ru fn : String) (content : List Nat)
    (resp1 resp2 : Response) (hne : content ≠ [])
    (h1 : server ⟨ru, [("Range", "bytes=" ++ toString content.length ++ "-")]⟩ = resp1)
    (hs1 : resp1.status = 200)
    (h2 : server ⟨ru, []⟩ = resp2)
    (hs2 : 200 ≤ resp2.status ∧ resp2.status < 300) :
    transfer server ru fn (some content) =
      ([⟨ru, [("Range", "bytes=" ++ toString content.length ++ "-")]⟩, ⟨ru, []⟩],
       finishStream fn (some content) 0 resp2) := by
  have hpos : 0 < content.length := List.length_pos.mpr hne
  have hu : urlopen_default server
      ⟨ru, [("Range", "bytes=" ++ toString content.length ++ "-")]⟩ = .ok resp1 := by
    unfold urlopen_default
    rw [h1, if_pos (by rw [hs1]; norm_num)]
  have hu2 : urlopen_default server ⟨ru, []⟩ = .ok resp2 := by
    unfold urlopen_default
    rw [h2, if_pos hs2]
  unfold transfer
  dsimp only
  simp only [Option.map_some', Option.getD_some]
  rw [if_pos hpos, hu]
  dsimp only
  rw [if_neg (by rw [hs1]; norm_num), if_pos hs1, hu2]

theorem transfer_none_eq (server : Server) (ru fn : String) (resp : Response)
    (hresp : server ⟨ru, []⟩ = resp)
    (hst : 200 ≤ resp.status ∧ resp.status < 300) :
    transfer server ru fn none = ([⟨ru, []⟩], finishStream fn none 0 resp) := by
  have hu : urlopen_default server ⟨ru, []⟩ = .ok resp := by
    unfold urlopen_default
    rw [hresp, if_pos hst]
  unfold transfer
  dsimp only
  rw [if_neg (by simp), hu]

/-- Every request the transfer engine sends carries either no headers at all or
exactly the single `Range` header built from the resume offset. -/
theorem transfer_requests (server : Server) (ru fn : String)
    (ex : Option (List Nat)) :
    ∀ r ∈ (transfer server ru fn ex).1,
      r.headers = [] ∨
        r.headers = [("Range", "bytes=" ++ toString ((ex.map List.length).getD 0) ++ "-")] := by
  intro r hr
  unfold transfer at hr
  by_cases hpos : (ex.map List.length).getD 0 > 0
  · rw [if_pos hpos] at hr
    dsimp only at hr
    rcases hu : urlopen_default server
        ⟨ru, [("Range", "bytes=" ++ toString ((ex.map List.length).getD 0) ++ "-")]⟩ with e | resp
    · rw [hu] at hr
      simp at hr
      subst hr
      right
      rfl
    · rw [hu] at hr
      dsimp only at hr
      by_cases h206 : resp.status = 206
      · rw [if_pos h206] at hr
        simp at hr
        subst hr
        right
        rfl
      · rw [if_neg h206] at hr
        by_cases h200 : resp.status = 200
        · rw [if_pos h200] at hr
          rcases hu2 : urlopen_default server ⟨ru, []⟩ with e2 | resp2
          · rw [hu2] at hr
            simp at hr
            rcases hr with hr | hr <;> subst hr
            · right; rfl
            · left; rfl
          · rw [hu2] at hr
            simp at hr
            rcases hr with hr | hr <;> subst hr
            · right; rfl
            · left; rfl
        · rw [if_neg h200] at hr
          simp at hr
          subst hr
          right
          rfl
  · rw [if_neg hpos] at hr
    dsimp only at hr
    rcases hu : urlopen_default server ⟨ru, []⟩ with e | resp
    · rw [hu] at hr
      simp at hr
      subst hr
      left
      rfl
    · rw [hu] at hr
      simp at hr
      subst hr
      left
      rfl

/-! ### The claims -/

/-- Claim C1 (confirmed): when a local file of N > 0 bytes exists and the server
answers the `Range: bytes=N-` request with status 206 and Content-Length L
(streaming L remaining body bytes), the transfer opens the local file in append
mode (`"ab"`), treats L as remaining bytes and reports a total of N + L, and the
final file is the old content followed by the streamed bytes, of size N + L. -/
theorem c1_resume_appends (server : Server) (rurl fname : String)
    (content body : List Nat) (L : Nat) (loc : Option String)
    (hne : content ≠ [])
    (hresp : server ⟨rurl, [("Range", "bytes=" ++ toString content.length ++ "-")]⟩ =
      ⟨206, loc, some L, body⟩)
    (hlen : body.length = L) :
    transfer server rurl fname (some content) =
      ([⟨rurl, [("Range", "bytes=" ++ toString content.length ++ "-")]⟩],
       .ok ⟨fname, "ab", content ++ body, some (content.length + L),
         content.length + L⟩) ∧
    (content ++ body).length = content.length + L := by
  subst hlen
  constructor
  · rw [transfer_206_eq server rurl fname content ⟨206, loc, some body.length, body⟩ hne hresp rfl]
    rw [finishStream_206 fname content body loc body.length (List.length_pos.mpr hne)]
    rw [Nat.add_comm body.length content.length]
  · exact List.length_append content body

/-- Witness for C1 at the spec's sizes: a 1000-byte local file and a 206
response with Content-Length 500 produce a 1500-byte file and a reported
total of 1500. -/
theorem c1_witness :
    transfer c1_server "https://content.example/f" "model.safetensors"
        (some (List.replicate 1000 0)) =
      ([⟨"https://content.example/f", [("Range", "bytes=1000-")]⟩],
       .ok ⟨"model.safetensors", "ab",
         List.replicate 1000 0 ++ List.replicate 500 1, some 1500, 1500⟩) ∧
    (List.replicate 1000 0 ++ List.replicate 500 1).length = 1500 :=
  c1_resume_appends c1_server "https://content.example/f" "model.safetensors"
    (List.replicate 1000 0) (List.replicate 500 1) 500 none (by decide) rfl (by decide)

/-- Claim C2 (confirmed): when a local file of N > 0 bytes exists and the server
answers the range request with status 200, the engine resets the resume offset
to 0, re-requests the URL plainly, opens the file in truncating mode (`"wb"`),
uses the fresh Content-Length as the total unchanged, and the final file is
exactly the freshly streamed body, of size equal to that Content-Length. -/
theorem c2_fallback_truncates (server : Server) (rurl fname : String)
    (content body2 : List Nat) (L : Nat) (resp1 : Response) (loc2 : Option String)
    (hne : content ≠ [])
    (h1 : server ⟨rurl, [("Range", "bytes=" ++ toString content.length ++ "-")]⟩ = resp1)
    (hs1 : resp1.status = 200)
    (h2 : server ⟨rurl, []⟩ = ⟨200, loc2, some L, body2⟩)
    (hlen : body2.length = L) :
    transfer server rurl fname (some content) =
      ([⟨rurl, [("Range", "bytes=" ++ toString content.length ++ "-")]⟩, ⟨rurl, []⟩],
       .ok ⟨fname, "wb", body2, some L, L⟩) := by
  subst hlen
  rw [transfer_200_eq server rurl fname content resp1 ⟨200, loc2, some body2.length, body2⟩
    hne h1 hs1 h2 (by norm_num)]
  rw [finishStream_0 fname (some content) ⟨200, loc2, some body2.length, body2⟩ ?h]
  case h =>
    rcases Nat.eq_zero_or_pos body2.length with h | h
    · right
      exact List.length_eq_zero.mp h
    · left
      intro hc
      injection hc with hc
      omega

/-- Witness for C2 at the spec's sizes: a 1000-byte local file, a 200 answer to
the range request, and a fresh 500-byte body produce a 500-byte file whose
reported total is the fresh Content-Length 500. -/
theorem c2_witness :
    transfer c2_server "https://content.example/f" "model.safetensors"
        (some (List.replicate 1000 0)) =
      ([⟨"https://content.example/f", [("Range", "bytes=1000-")]⟩,
        ⟨"https://content.example/f", []⟩],
       .ok ⟨"model.safetensors", "wb", List.replicate 500 2, some 500, 500⟩) :=
  c2_fallback_truncates c2_server "https://content.example/f" "model.safetensors"
    (List.replicate 1000 0) (List.replicate 500 2) 500
    ⟨200, none, some 500, List.replicate 500 2⟩ none (by decide) rfl rfl rfl (by decide)

/-- Claim C4 (confirmed): re-running the transfer against an already complete
local file (N > 0 bytes; the server answers the `bytes=N-` range request with
206, Content-Length 0 and an empty body) leaves the file byte-for-byte
unchanged, reports a total equal to the resume offset, appends zero bytes, and
terminates cleanly. -/
theorem c4_idempotent_rerun (server : Server) (rurl fname : String)
    (content : List Nat) (loc : Option String)
    (hne : content ≠ [])
    (hresp : server ⟨rurl, [("Range", "bytes=" ++ toString content.length ++ "-")]⟩ =
      ⟨206, loc, some 0, []⟩) :
    transfer server rurl fname (some content) =
      ([⟨rurl, [("Range", "bytes=" ++ toString content.length ++ "-")]⟩],
       .ok ⟨fname, "ab", content, some content.length, content.length⟩) := by
  rw [transfer_206_eq server rurl fname content ⟨206, loc, some 0, []⟩ hne hresp rfl]
  rw [finishStream_206 fname content [] loc 0 (List.length_pos.mpr hne)]
  simp

/-- Witness for C4: a 3-byte complete file plus an empty 206 body leave the
file `[9, 9, 9]` untouched with total and downloaded both 3. -/
theorem c4_witness :
    transfer c4_server "https://content.example/f" "model.safetensors"
        (some [9, 9, 9]) =
      ([⟨"https://content.example/f", [("Range", "bytes=3-")]⟩],
       .ok ⟨"model.safetensors", "ab", [9, 9, 9], some 3, 3⟩) :=
  c4_idempotent_rerun c4_server "https://content.example/f" "model.safetensors"
    [9, 9, 9] none (by decide) rfl

/-- Claim C3 (refuted as stated): not every request carries the
`Authorization: Bearer <token>` and `User-Agent` headers.  In this run the
second request sent — the range-resume request — carries neither. -/
theorem c3_counterexample :
    ¬ (∀ r ∈ (download_file "https://civitai.com/api/download/models/1" "." "tok"
          c3_server (some [0])).1,
        (r.headers.contains ("Authorization", "Bearer tok") &&
         r.headers.contains ("User-Agent", USER_AGENT)) = true) := by
  decide

/-- Claim C3 (amended): only the resolution request carries the
`Authorization: Bearer <token>` and static `User-Agent` headers; every later
request carries either no program-set headers at all (fresh and fallback
transfer requests) or exactly the single `Range` header (range-resume
request). -/
theorem c3_request_headers (url outp tok : String) (server : Server)
    (ex : Option (List Nat)) :
    ((download_file url outp tok server ex).1.head?.map Request.headers) =
      some (resolutionHeaders tok) ∧
    ∀ r ∈ (download_file url outp tok server ex).1.tail,
      r.headers = [] ∨
        r.headers = [("Range", "bytes=" ++ toString ((ex.map List.length).getD 0) ++ "-")] := by
  unfold download_file
  dsimp only
  rcases hres : resolve (server ⟨url, resolutionHeaders tok⟩) with e | ⟨ru, fn⟩
  · constructor
    · rfl
    · intro r hr
      simp at hr
  · constructor
    · rfl
    · intro r hr
      dsimp only at hr
      exact transfer_requests server ru fn ex r hr

/-- Claim C5 (refuted as stated): a resolution status that is neither a
redirect nor 404 raises an error, but that error does not carry the response's
status code — statuses 500 and 418 produce the identical fixed
`RuntimeError`, whose message does not contain the digits of the status. -/
theorem c5_counterexample :
    resolve ⟨500, none, none, []⟩ =
      .error (.runtimeError "No redirect found, something went wrong") ∧
    resolve ⟨500, none, none, []⟩ = resolve ⟨418, none, none, []⟩ ∧
    strContains "No redirect found, something went wrong" (toString 500) = false := by
  decide

/-- Claim C5 (amended): status 404 raises `FileNotFoundError('File not found')`
without reading the `Location` header (the result is the same for every
`Location` value), and any status that is neither a redirect (301/302/303/307/
308) nor 404 raises `RuntimeError` with the fixed message
`'No redirect found, something went wrong'`, which does not include the status
code. -/
theorem c5_resolution_errors (st : Nat) (loc loc2 : Option String)
    (cl cl2 : Option Nat) (body body2 : List Nat)
    (hst : st ∉ [301, 302, 303, 307, 308]) (h404 : st ≠ 404) :
    resolve ⟨404, loc, cl, body⟩ = .error (.fileNotFoundError "File not found") ∧
    resolve ⟨st, loc2, cl2, body2⟩ =
      .error (.runtimeError "No redirect found, something went wrong") := by
  constructor
  · unfold resolve
    dsimp only
    rw [if_neg (by decide), if_pos rfl]
  · unfold resolve
    dsimp only
    rw [if_neg hst, if_neg h404]

/-- Witness for C5: status 500 (with arbitrary `Location` values on the 404
side) produces exactly the two modelled errors. -/
theorem c5_witness :
    resolve ⟨404, some "https://anywhere.example/x", some 7, [1, 2]⟩ =
      .error (.fileNotFoundError "File not found") ∧
    resolve ⟨500, none, none, []⟩ =
      .error (.runtimeError "No redirect found, something went wrong") :=
  c5_resolution_errors 500 (some "https://anywhere.example/x") none (some 7) none
    [1, 2] [] (by decide) (by decide)

/-- Claim C6 (confirmed): on a redirect status the resolver takes the
`Location` header as the content URL and parses its query string for
`response-content-disposition`; when present, the filename is the
percent-decoded, quote-stripped token after `filename=`, and when absent a
`ValueError('Unable to determine filename')` is raised. -/
theorem c6_filename_extraction (st : Nat) (loc : String) (cl : Option Nat)
    (body : List Nat) (cd tok : String)
    (hst : st ∈ [301, 302, 303, 307, 308]) :
    (parse_qs_get (urlparse_query loc) "response-content-disposition" = some cd →
      (pySplit cd "filename=").get? 1 = some tok →
      resolve ⟨st, some loc, cl, body⟩ = .ok (loc, unquote (strip_quotes tok))) ∧
    (parse_qs_get (urlparse_query loc) "response-content-disposition" = none →
      resolve ⟨st, some loc, cl, body⟩ =
        .error (.valueError "Unable to determine filename")) := by
  constructor
  · intro hcd htok
    unfold resolve
    dsimp only
    rw [if_pos hst]
    simp only [Option.getD_some]
    rw [hcd]
    dsimp only
    rw [htok]
  · intro hnone
    unfold resolve
    dsimp only
    rw [if_pos hst]
    simp only [Option.getD_some]
    rw [hnone]

/-- Witness for C6 at the spec's mocked value: the disposition
`attachment%3B%20filename%3D%22model.safetensors%22` yields exactly
`model.safetensors`, and a query without the parameter yields the error. -/
theorem c6_witness :
    resolve ⟨302, some c6_location, none, []⟩ =
      .ok (c6_location, "model.safetensors") ∧
    resolve ⟨302, some c6_location_bare, none, []⟩ =
      .error (.valueError "Unable to determine filename") :=
  ⟨(c6_filename_extraction 302 c6_location none []
      "attachment; filename=\"model.safetensors\"" "\"model.safetensors\""
      (by decide)).1 (by decide) (by decide),
   (c6_filename_extraction 302 c6_location_bare none [] "" "" (by decide)).2 (by decide)⟩

/-- Claim C7 (refuted as stated): a string that begins with a URL scheme other
than `http` — here `ftp://example.com` — is not returned unchanged but is
prefixed with the base endpoint. -/
theorem c7_counterexample :
    beginsWithURLScheme "ftp://example.com" = true ∧
    normalize_url "ftp://example.com" ≠ "ftp://example.com" := by
  decide

/-- Claim C7 (amended): for every string of decimal digits `id`,
`normalize_url id = BASE_URL ++ id`; a string is returned unchanged when it
begins with the literal prefix `http` (which covers all `http://` and
`https://` URLs, but not other schemes). -/
theorem c7_normalize (s : String) :
    (s.data.all Char.isDigit = true → normalize_url s = BASE_URL ++ s) ∧
    (py_startswith s "http" = true → normalize_url s = s) := by
  constructor
  · intro hdig
    unfold normalize_url
    by_cases hd : py_isdigit s
    · rw [if_pos hd]
    · rw [if_neg hd]
      have hempty : s.data = [] := by
        unfold py_isdigit at hd
        rw [hdig] at hd
        simp at hd
        exact hd
      have hnothttp : ¬ py_startswith s "http" = true := by
        unfold py_startswith
        rw [hempty]
        decide
      rw [if_neg hnothttp]
  · intro hhttp
    unfold normalize_url
    have hhead : ∃ cs, s.data = 'h' :: cs := by
      unfold py_startswith at hhttp
      cases hsd : s.data with
      | nil =>
        rw [hsd] at hhttp
        exact absurd hhttp (by decide)
      | cons c cs =>
        rw [hsd] at hhttp
        rw [show "http".data = ['h', 't', 't', 'p'] from rfl] at hhttp
        rw [matchesAt?] at hhttp
        by_cases hc : c = 'h'
        · exact ⟨cs, by rw [hc]⟩
        · rw [if_neg hc] at hhttp
          simp [matchesAt?] at hhttp
    obtain ⟨cs, hsd⟩ := hhead
    have hnd : ¬ py_isdigit s = true := by
      unfold py_isdigit
      rw [hsd]
      simp [List.all_cons]
    rw [if_neg hnd, if_pos hhttp]

/-- Witness for C7: a numeric identifier is expanded against the base endpoint
and an `https` URL is returned unchanged. -/
theorem c7_witness :
    normalize_url "46846" = BASE_URL ++ "46846" ∧
    normalize_url "https://civitai.com/api/download/models/46846" =
      "https://civitai.com/api/download/models/46846" :=
  ⟨(c7_normalize "46846").1 (by decide),
   (c7_normalize "https://civitai.com/api/download/models/46846").2 (by decide)⟩

/-- Claim C8 (refuted as stated): the engine has no overflow check — a server
declaring Content-Length 10 but streaming 20 bytes completes successfully with
`downloaded = 20` exceeding the reported total 10, with no error condition. -/
theorem c8_counterexample :
    (transfer c8_server "https://content.example/f" "m" none).2 =
      .ok ⟨"m", "wb", List.replicate 20 7, some 10, 20⟩ ∧ 10 < 20 := by
  constructor
  · decide
  · decide

/-- Claim C8 (amended): the engine never compares `downloaded` against the
total: whenever the plain response carries a positive Content-Length `L` and a
body longer than `L`, the run completes successfully with
`downloaded = body.length > L` — the excess is not treated as an error. -/
theorem c8_no_overflow_check (server : Server) (rurl fname : String)
    (body : List Nat) (L : Nat) (loc : Option String)
    (hresp : server ⟨rurl, []⟩ = ⟨200, loc, some L, body⟩)
    (hL : 0 < L) (hover : L < body.length) :
    transfer server rurl fname none =
      ([⟨rurl, []⟩], .ok ⟨fname, "wb", body, some L, body.length⟩) ∧
    L < body.length := by
  constructor
  · rw [transfer_none_eq server rurl fname ⟨200, loc, some L, body⟩ hresp (by norm_num)]
    rw [finishStream_0 fname none ⟨200, loc, some L, body⟩
      (by left; intro hc; injection hc with hc; omega)]
  · exact hover

/-- Witness for C8: Content-Length 10 with a 20-byte body completes with
`downloaded = 20`. -/
theorem c8_witness :
    transfer c8_server "https://content.example/f" "m" none =
      ([⟨"https://content.example/f", []⟩],
       .ok ⟨"m", "wb", List.replicate 20 7, some 10, 20⟩) ∧ 10 < 20 :=
  c8_no_overflow_check c8_server "https://content.example/f" "m"
    (List.replicate 20 7) 10 none rfl (by decide) (by decide)

/-- Claim C9 (refuted as stated): not every failure is caught by the top-level
handler — a redirect whose disposition value lacks a `filename=` token raises
an `IndexError`, which is outside the caught classes and crashes `main`. -/
theorem c9_counterexample :
    main_model "123" "." (some "tok") "prompted" c9_server none =
      .crashed (.indexError "list index out of range") := by
  decide

/-- Claim C9 (amended): every run either completes, or prints a single
`ERROR: <message>` line for the caught classes (ValueError, FileNotFoundError,
RuntimeError, IOError, URLError/HTTPError), or crashes on one of the two
uncaught exceptions the code can raise: `IndexError` (disposition without
`filename=`) or `ZeroDivisionError` (declared total 0 with a nonempty body). -/
theorem c9_error_boundary (urlArg outp prompted : String) (tf : Option String)
    (server : Server) (ex : Option (List Nat)) :
    main_model urlArg outp tf prompted server ex = .completed
    ∨ (∃ msg, main_model urlArg outp tf prompted server ex =
        .printedError ("ERROR: " ++ msg))
    ∨ (∃ m, main_model urlArg outp tf prompted server ex =
        .crashed (.indexError m))
    ∨ (∃ m, main_model urlArg outp tf prompted server ex =
        .crashed (.zeroDivisionError m)) := by
  unfold main_model
  rcases hd : (download_file (normalize_url urlArg) outp (chooseToken tf prompted)
      server ex).2 with e | r
  · dsimp only
    rcases e with m | m | m | m | m | code
    · right; left; exact ⟨m, by simp [caught, errMessage]⟩
    · right; left; exact ⟨m, by simp [caught, errMessage]⟩
    · right; left; exact ⟨m, by simp [caught, errMessage]⟩
    · right; right; left; exact ⟨m, by simp [caught]⟩
    · right; right; right; exact ⟨m, by simp [caught]⟩
    · right; left; exact ⟨errMessage (.httpError code), by simp [caught]⟩
  · left
    rfl

/-- Claim C10 (confirmed): the credential read returns the token file's content
verbatim — no trimming, no validation — and that raw string (trailing
whitespace included) is embedded unchanged in the `Authorization: Bearer`
header of the resolution request, the first request of the run. -/
theorem c10_token_verbatim (raw urlArg outp prompted : String) (server : Server)
    (ex : Option (List Nat)) (h : raw ≠ "") :
    get_token (some raw) = some raw ∧
    (main_requests urlArg outp (some raw) prompted server ex).head? =
      some ⟨normalize_url urlArg,
        [("Authorization", "Bearer " ++ raw), ("User-Agent", USER_AGENT)]⟩ := by
  refine ⟨rfl, ?_⟩
  unfold main_requests download_file chooseToken get_token
  dsimp only
  rw [if_neg h]
  rcases hres : resolve (server ⟨normalize_url urlArg, resolutionHeaders raw⟩)
      with e | ⟨ru, fn⟩
  · rfl
  · rfl

/-- Witness for C10: a stored token with a trailing newline is sent verbatim,
newline included, in the `Authorization` header. -/
theorem c10_witness :
    get_token (some "secret-token\n") = some "secret-token\n" ∧
    (main_requests "46846" "." (some "secret-token\n") "prompted" c10_server
        none).head? =
      some ⟨normalize_url "46846",
        [("Authorization", "Bearer secret-token\n"), ("User-Agent", USER_AGENT)]⟩ :=
  c10_token_verbatim "secret-token\n" "46846" "." "prompted" c10_server none
    (by decide)

end Civitai
